import Mathlib

/-!
Verification of the mediation core of `mi_app_mando` (`backen2/core2/core_dajarony/logica`):
the circuit breaker, interaction manager, event bus and telemetry collector.  Python state is
embedded as explicit records and association lists; wall-clock instants and metric values are
rationals; each definition mirrors one function of the source.
-/

/-- First-match association-list lookup, embedding a Python dict read (`d[k]` / `d.get(k)`). -/
def lookup_assoc {α : Type} (l : List (String × α)) (key : String) : Option α :=
  (l.find? (fun p => p.1 == key)).map Prod.snd

/-- Association-list update embedding a Python dict write `d[k] = v`: overwrite the existing
entry in place, else append (dicts preserve insertion order). -/
def set_assoc {α : Type} (l : List (String × α)) (key : String) (v : α) : List (String × α) :=
  if (l.find? (fun p => p.1 == key)).isSome
  then l.map (fun p => if p.1 == key then (key, v) else p)
  else l ++ [(key, v)]

/-- Python `s.split(sep)` for a single-character separator, on the character list of the
string: splits at every occurrence of `sep`, keeping empty chunks. -/
def split_char (sep : Char) : List Char → List (List Char)
  | [] => [[]]
  | c :: cs =>
    match split_char sep cs with
    | [] => [[]]
    | r :: rs => if c = sep then [] :: r :: rs else (c :: r) :: rs

namespace CircuitBreaker

/-- The three circuit states (`CircuitState` in `circuit_breaker.py`). -/
inductive CircuitState where
  | closed
  | opened
  | halfOpened
deriving DecidableEq

/-- One circuit record, the dict built by `CircuitBreaker.register_circuit`.  Counters are
naturals, timestamps and the reset timeout are rationals (seconds). -/
structure Circuit where
  state : CircuitState
  failure_count : Nat
  success_count : Nat
  last_failure_time : ℚ
  last_success_time : ℚ
  last_state_change : ℚ
  total_failures : Nat
  total_successes : Nat
  total_timeouts : Nat
  open_count : Nat
  source : String
  target : String
  max_failures : Nat
  reset_timeout : ℚ
  half_open_max_calls : Nat
  success_threshold : Nat
  half_open_calls : Nat
deriving DecidableEq

/-- Constructor defaults of `CircuitBreaker.__init__`: `default_max_failures=3`. -/
def default_max_failures : Nat := 3

/-- Constructor default `default_reset_timeout=30` seconds. -/
def default_reset_timeout : ℚ := 30

/-- Constructor default `default_half_open_max_calls=1`. -/
def default_half_open_max_calls : Nat := 1

/-- Constructor default `default_success_threshold=2`. -/
def default_success_threshold : Nat := 2

/-- The new-circuit dict of `register_circuit` (lines 150-168) with the constructor
defaults, as used by the auto-registration path of `execute` which passes no overrides. -/
def fresh_circuit (source target : String) (now : ℚ) : Circuit :=
  { state := .closed
    failure_count := 0
    success_count := 0
    last_failure_time := 0
    last_success_time := 0
    last_state_change := now
    total_failures := 0
    total_successes := 0
    total_timeouts := 0
    open_count := 0
    source := source
    target := target
    max_failures := default_max_failures
    reset_timeout := default_reset_timeout
    half_open_max_calls := default_half_open_max_calls
    success_threshold := default_success_threshold
    half_open_calls := 0 }

/-- Embeds `CircuitBreaker._change_state`: no-op when the state is unchanged, otherwise switch
state, stamp the change, and reset the counters the new state requires.  Store writes and
the `circuit:state_change` event are omitted (no claim mentions them). -/
def change_state (now : ℚ) (new_state : CircuitState) (c : Circuit) : Circuit :=
  if c.state = new_state then c
  else
    let c1 := { c with state := new_state, last_state_change := now }
    match new_state with
    | .closed => { c1 with failure_count := 0, success_count := 0 }
    | .opened => { c1 with success_count := 0 }
    | .halfOpened => { c1 with half_open_calls := 0, success_count := 0 }

/-- Embeds `CircuitBreaker._record_success`: bump the success counters, clear `failure_count`,
and close the circuit when a half-open probe run reaches `success_threshold`.  The state
test uses the state read on entry, as the source does. -/
def record_success (now : ℚ) (c : Circuit) : Circuit :=
  let current_state := c.state
  let c1 := { c with
    success_count := c.success_count + 1
    total_successes := c.total_successes + 1
    last_success_time := now
    failure_count := 0 }
  if current_state = .halfOpened ∧ c1.success_count ≥ c1.success_threshold
  then change_state now .closed c1
  else c1

/-- Embeds `CircuitBreaker._record_failure`: bump the failure counters, clear `success_count`,
and when the circuit was CLOSED or HALF_OPEN and `failure_count` reaches `max_failures`,
open it and bump `open_count` (the bump follows the state change, as in the source). -/
def record_failure (now : ℚ) (c : Circuit) : Circuit :=
  let current_state := c.state
  let c1 := { c with
    failure_count := c.failure_count + 1
    total_failures := c.total_failures + 1
    last_failure_time := now
    success_count := 0 }
  if (current_state = .closed ∨ current_state = .halfOpened) ∧
      c1.failure_count ≥ c1.max_failures
  then
    let c2 := change_state now .opened c1
    { c2 with open_count := c2.open_count + 1 }
  else c1

/-- Embeds `CircuitBreaker._record_timeout`: bump `total_timeouts`, then treat the timeout as a
failure. -/
def record_timeout (now : ℚ) (c : Circuit) : Circuit :=
  record_failure now { c with total_timeouts := c.total_timeouts + 1 }

/-- Embeds `CircuitBreaker.reset`: force the circuit back to CLOSED. -/
def reset (now : ℚ) (c : Circuit) : Circuit :=
  change_state now .closed c

/-- What the protected function would do if invoked. -/
inductive FnOutcome where
  | ok
  | raises
  | timedOut
deriving DecidableEq

/-- Which branch of `execute` handled the call. -/
inductive ExecPath where
  | fastOpen
  | fastHalfOpen
  | ranOk
  | ranError
  | ranTimeout
deriving DecidableEq

/-- Result of one `execute` call on one circuit: the branch taken, whether the fallback
was invoked, whether an exception escaped to the caller, whether the protected function
was invoked, and the circuit afterwards. -/
structure ExecOutput where
  path : ExecPath
  used_fallback : Bool
  raised : Bool
  fn_invoked : Bool
  circuit : Circuit
deriving DecidableEq

/-- The invoke-and-record tail of `CircuitBreaker.execute` (lines 242-281): run the
function, record success / failure / timeout, and on failure return the fallback result
when a fallback exists, else re-raise. -/
def run_fn (now : ℚ) (has_fallback : Bool) (oc : FnOutcome) (c : Circuit) : ExecOutput :=
  match oc with
  | .ok => ⟨.ranOk, false, false, true, record_success now c⟩
  | .raises => ⟨.ranError, has_fallback, !has_fallback, true, record_failure now c⟩
  | .timedOut => ⟨.ranTimeout, has_fallback, !has_fallback, true, record_timeout now c⟩

/-- Embeds `CircuitBreaker.execute` on an existing circuit (lines 212-281).  `current_state` is
the snapshot taken at line 213; the source tests that snapshot again at line 231, so a
call that itself performs the OPEN→HALF_OPEN transition skips the half-open admission
check and proceeds to run the function with `half_open_calls` reset to 0. -/
def execute (now : ℚ) (has_fallback : Bool) (oc : FnOutcome) (c : Circuit) : ExecOutput :=
  let current_state := c.state
  if current_state = .opened then
    if now - c.last_failure_time > c.reset_timeout then
      let c1 := { change_state now .halfOpened c with half_open_calls := 0 }
      run_fn now has_fallback oc c1
    else
      ⟨.fastOpen, has_fallback, !has_fallback, false, c⟩
  else if current_state = .halfOpened then
    let c1 := { c with half_open_calls := c.half_open_calls + 1 }
    if c1.half_open_calls > c1.half_open_max_calls then
      ⟨.fastHalfOpen, has_fallback, !has_fallback, false, c1⟩
    else
      run_fn now has_fallback oc c1
  else
    run_fn now has_fallback oc c

/-- The mutual-exclusion invariant on the consecutive counters claimed by the spec:
a positive `failure_count` forces `success_count = 0` and vice versa. -/
def counters_mutex (c : Circuit) : Prop :=
  (0 < c.failure_count → c.success_count = 0) ∧
  (0 < c.success_count → c.failure_count = 0)

instance (c : Circuit) : Decidable (counters_mutex c) := by
  unfold counters_mutex; infer_instance

/-- Embeds `CircuitBreaker.register_circuit` on the registry dict, with no configuration
overrides (the auto-registration path passes none): an existing circuit is left as it is,
a new one is appended under the key `source:target`. -/
def register_circuit (now : ℚ) (source target : String)
    (r : List (String × Circuit)) : List (String × Circuit) :=
  let cid := source ++ ":" ++ target
  if (lookup_assoc r cid).isSome then r
  else r ++ [(cid, fresh_circuit source target now)]

/-- The registration phase of `CircuitBreaker.execute` (lines 199-207): when `circuit_id`
is unknown, split it on `:`; two parts register that edge, anything else registers
`("default", circuit_id)`, whose key is `"default:" ++ circuit_id`. -/
def ensure_circuit (now : ℚ) (cid : String)
    (r : List (String × Circuit)) : List (String × Circuit) :=
  if (lookup_assoc r cid).isSome then r
  else
    match split_char ':' cid.data with
    | [s, t] => register_circuit now (String.mk s) (String.mk t) r
    | _ => register_circuit now "default" cid r

/-- Full `CircuitBreaker.execute` including registration: after `ensure_circuit`, the
source reads `self.circuits[circuit_id]` (line 210); a missing key raises `KeyError`,
modelled by `none` — in that case the function, the fallback and the recorders are never
reached. -/
def execute_full (now : ℚ) (has_fallback : Bool) (oc : FnOutcome) (cid : String)
    (r : List (String × Circuit)) :
    Option (ExecOutput × List (String × Circuit)) :=
  let r1 := ensure_circuit now cid r
  match lookup_assoc r1 cid with
  | none => none
  | some c =>
    let out := execute now has_fallback oc c
    some (out, set_assoc r1 cid out.circuit)

end CircuitBreaker

namespace EventBus

/-- Embeds `fnmatch.fnmatch(name, pattern)` on POSIX, for patterns built from literal characters
and the wildcards `*` (any, possibly empty, substring) and `?` (any single character) —
the only pattern forms this system registers.  `*` is matched by trying every suffix of
the name, which is equivalent to the greedy regular expression `fnmatch` compiles. -/
def glob_match_chars : List Char → List Char → Bool
  | [], name => name.isEmpty
  | '*' :: ps, name => (name.tails.map (glob_match_chars ps)).any id
  | '?' :: ps, name =>
    match name with
    | [] => false
    | _ :: ns => glob_match_chars ps ns
  | p :: ps, name =>
    match name with
    | [] => false
    | a :: ns => p == a && glob_match_chars ps ns

/-- Embeds `fnmatch.fnmatch(name, pattern)` on strings. -/
def glob_match (name pattern : String) : Bool :=
  glob_match_chars pattern.data name.data

/-- One event-bus subscription: its pattern and its subscription id (a fresh UUID in the
source, a natural here). -/
structure Subscription where
  pattern : String
  sid : Nat
deriving DecidableEq

/-- Embeds `EventBus._get_subscribers_for_event`: the exact-name subscribers followed by every
subscription whose pattern is in the wildcard index (it contains a `*`) and matches the
event name via `fnmatch`. -/
def get_subscribers_for_event (subs : List Subscription) (event_name : String) :
    List Subscription :=
  subs.filter (fun s => s.pattern == event_name) ++
  subs.filter (fun s => s.pattern.data.contains '*' && glob_match event_name s.pattern)

/-- Embeds `EventBus.emit` restricted to its observable delivery: the subscription ids whose
callbacks are invoked (synchronously or as scheduled tasks), in resolution order. -/
def emit (subs : List Subscription) (event_name : String) : List Nat :=
  (get_subscribers_for_event subs event_name).map (fun s => s.sid)

end EventBus

namespace InteractionManager

/-- The `status` / `error_type` fields of the trace metadata written under `trace_key`. -/
inductive TraceStatus where
  | pending
  | success
  | error (error_type : String)
deriving DecidableEq

/-- What `InteractionManager.call` gives back to its caller: the target's result, the
`None` produced by `_fallback_handler`, or a raised `PermissionError` (with the circuit
breaker and its fallback wired in, no other exception escapes `call`). -/
inductive CallResultKind where
  | value
  | fallbackNone
  | raisedPermission (error_type : String)
deriving DecidableEq

/-- Observable effect of one mediated call: final trace status, the event names emitted
by the manager in order, the caller-visible result, the circuit afterwards, and whether
the target body was invoked. -/
structure MCResult where
  trace : TraceStatus
  events : List String
  result : CallResultKind
  circuit : CircuitBreaker.Circuit
  fn_invoked : Bool
deriving DecidableEq

/-- The protected phase of `InteractionManager.call` (lines 194-225): delegate to
`CircuitBreaker.execute` with `fn = self._do_call` and the fallback always set to
`self._fallback_handler`, which emits `module:circuit_fallback` and returns `None`.
`oc` is what `_do_call`'s body would do.  `_do_call` emits `module:call:<target>` before
invoking the target, records the trace and emits `telemetry:interaction` on success, and
on an exception other than `TimeoutError` writes the trace error and emits
`module:interaction_error` before re-raising; `_record_latency` in the `finally` block
emits `telemetry:latency` (telemetry is enabled by default).  With the fallback present,
`execute` never re-raises, so the except branch of `call` is not reached on this path.
Store writes, stats counters and breaker-level events are omitted (no claim mentions
them). -/
def mediated_call_protected (target : String) (now : ℚ) (oc : CircuitBreaker.FnOutcome)
    (c : CircuitBreaker.Circuit) : MCResult :=
  let out := CircuitBreaker.execute now true oc c
  match out.path with
  | .fastOpen =>
    { trace := .pending
      events := ["module:circuit_fallback", "telemetry:latency"]
      result := .fallbackNone
      circuit := out.circuit
      fn_invoked := false }
  | .fastHalfOpen =>
    { trace := .pending
      events := ["module:circuit_fallback", "telemetry:latency"]
      result := .fallbackNone
      circuit := out.circuit
      fn_invoked := false }
  | .ranOk =>
    { trace := .success
      events := ["module:call:" ++ target, "telemetry:interaction", "telemetry:latency"]
      result := .value
      circuit := out.circuit
      fn_invoked := true }
  | .ranError =>
    { trace := .error "EXECUTION_ERROR"
      events := ["module:call:" ++ target, "module:interaction_error",
                 "module:circuit_fallback", "telemetry:latency"]
      result := .fallbackNone
      circuit := out.circuit
      fn_invoked := true }
  | .ranTimeout =>
    { trace := .pending
      events := ["module:call:" ++ target, "module:circuit_fallback", "telemetry:latency"]
      result := .fallbackNone
      circuit := out.circuit
      fn_invoked := true }

/-- Embeds `InteractionManager.call` on one edge: the permission and security gate (lines
179-191) in front of the protected phase.  `required_level` is the registered permission
edge (`none`: not registered), `ctx_level` the caller's security level (`none`: no
context).  A missing edge or an insufficient security level writes the trace error, emits
`module:interaction_error` and raises `PermissionError` before the try block, so no
latency event is emitted and the circuit is untouched. -/
def mediated_call (required_level : Option Nat) (ctx_level : Option Nat)
    (target : String) (now : ℚ) (oc : CircuitBreaker.FnOutcome)
    (c : CircuitBreaker.Circuit) : MCResult :=
  match required_level with
  | none =>
    { trace := .error "PERMISSION_ERROR"
      events := ["module:interaction_error"]
      result := .raisedPermission "PERMISSION_ERROR"
      circuit := c
      fn_invoked := false }
  | some req =>
    match ctx_level with
    | some l =>
      if req > l then
        { trace := .error "SECURITY_ERROR"
          events := ["module:interaction_error"]
          result := .raisedPermission "SECURITY_ERROR"
          circuit := c
          fn_invoked := false }
      else mediated_call_protected target now oc c
    | none => mediated_call_protected target now oc c

end InteractionManager

namespace TelemetryCollector

/-- Alert severities (`AlertSeverity` in `telemetry_collector.py`). -/
inductive AlertSeverity where
  | info
  | warning
  | severityError
  | critical
deriving DecidableEq

/-- Bool test that `p` is a prefix of `s` (Python `s.startswith(p)`), on character lists. -/
def starts_with (s p : List Char) : Bool :=
  p.isPrefixOf s

/-- Bool test that `p` is a suffix of `s` (Python `s.endswith(p)`), on character lists. -/
def ends_with (s p : List Char) : Bool :=
  p.reverse.isPrefixOf s.reverse

/-- Embeds `TelemetryCollector._match_metric_pattern`: exact name, `prefix*`, `*suffix`, or a
single interior `*` (the source splits on `*` and requires exactly two parts). -/
def match_metric_pattern (metric_name pattern : String) : Bool :=
  if pattern == metric_name then true
  else if ends_with pattern.data ['*'] &&
      starts_with metric_name.data (pattern.data.dropLast) then true
  else if starts_with pattern.data ['*'] &&
      ends_with metric_name.data (pattern.data.drop 1) then true
  else if pattern.data.contains '*' then
    match split_char '*' pattern.data with
    | [p0, p1] => starts_with metric_name.data p0 && ends_with metric_name.data p1
    | _ => false
  else false

/-- The `alert_type` selection of `_emit_alert` (lines 496-507), by metric-name prefix;
the result is the `.value` string of the chosen `AlertType`. -/
def alert_type (metric_name : String) : String :=
  if starts_with metric_name.data ("cpu".data) then "high_cpu"
  else if starts_with metric_name.data ("memory".data) then "high_memory"
  else if starts_with metric_name.data ("latency".data) then "high_latency"
  else if starts_with metric_name.data ("error".data) then "error_rate"
  else "anomaly_detected"

/-- The fields of an `active_alerts` entry that `_emit_alert` reads back on the next
alert for the same key. -/
structure ActiveAlert where
  severity : AlertSeverity
  value : ℚ
  timestamp : ℚ
deriving DecidableEq

/-- One emitted alert (the payload of the `system:alert` event), restricted to the fields
the claims mention. -/
structure Alert where
  type : String
  severity : AlertSeverity
  metric : String
  value : ℚ
  threshold : ℚ
deriving DecidableEq

/-- Embeds `TelemetryCollector._emit_alert` (lines 484-568): deduplicate against `active_alerts`
under the key `type:metric`, then record and emit.  Both suppression tests of the source
are kept: the first returns whenever the last alert is younger than 300 seconds and has
the same severity, which makes the second (the ≥50% value-growth exception) unreachable.
Returns the alerts emitted (empty or a singleton) and the updated map. -/
def emit_alert (now : ℚ) (metric_name : String) (value threshold : ℚ)
    (severity : AlertSeverity) (active : List (String × ActiveAlert)) :
    List Alert × List (String × ActiveAlert) :=
  let key := alert_type metric_name ++ ":" ++ metric_name
  let fire : List Alert × List (String × ActiveAlert) :=
    ([⟨alert_type metric_name, severity, metric_name, value, threshold⟩],
     set_assoc active key ⟨severity, value, now⟩)
  match lookup_assoc active key with
  | none => fire
  | some last =>
    let time_since_last := now - last.timestamp
    if time_since_last < 300 ∧ last.severity = severity then ([], active)
    else if last.severity = severity ∧ time_since_last < 300 ∧
        value < last.value * (3 / 2) then ([], active)
    else fire

/-- Threshold configuration for one metric pattern (`warning` / `critical` keys of an
`alert_thresholds` entry; `none` models an absent key). -/
structure Thresholds where
  warning : Option ℚ
  critical : Option ℚ
deriving DecidableEq

/-- The statistics fields `_check_thresholds` can select from (`none` models an absent
key in the stats dict). -/
structure Stats where
  mean : Option ℚ
  p95 : Option ℚ
  maxv : Option ℚ
deriving DecidableEq

/-- The representative-value selection of `_check_thresholds` (lines 420-431): the mean
when present, else p95 for `latency.` patterns, else max for `.max` patterns. -/
def check_value_for (pattern : String) (stats : Stats) : Option ℚ :=
  if stats.mean.isSome then stats.mean
  else if stats.p95.isSome && starts_with pattern.data ("latency.".data) then stats.p95
  else if stats.maxv.isSome && ends_with pattern.data (".max".data) then stats.maxv
  else none

/-- The warning branch of the threshold comparison in `_check_thresholds`. -/
def warning_action (th : Thresholds) (cv : ℚ) : Option (AlertSeverity × ℚ) :=
  match th.warning with
  | some w => if cv ≥ w then some (.warning, w) else none
  | none => none

/-- The critical-then-warning comparison of `_check_thresholds` (lines 434-451). -/
def threshold_action (th : Thresholds) (cv : ℚ) : Option (AlertSeverity × ℚ) :=
  match th.critical with
  | some cr => if cv ≥ cr then some (.critical, cr) else warning_action th cv
  | none => warning_action th cv

/-- Embeds `TelemetryCollector._check_thresholds`: fold over the configured threshold entries,
emitting through `_emit_alert` for each matching pattern whose representative value
breaches critical (else warning).  Returns all alerts emitted and the updated
`active_alerts` map. -/
def check_thresholds (thresholds : List (String × Thresholds)) (metric_name : String)
    (stats : Stats) (now : ℚ) (active : List (String × ActiveAlert)) :
    List Alert × List (String × ActiveAlert) :=
  thresholds.foldl (fun acc entry =>
    if match_metric_pattern metric_name entry.1 then
      match check_value_for entry.1 stats with
      | some cv =>
        match threshold_action entry.2 cv with
        | some sevth =>
          let r := emit_alert now metric_name cv sevth.2 sevth.1 acc.2
          (acc.1 ++ r.1, r.2)
        | none => acc
      | none => acc
    else acc) ([], active)

/-- Embeds `statistics.mean` over rationals. -/
def mean_list (values : List ℚ) : ℚ :=
  values.sum / values.length

/-- Square of `statistics.stdev`: the sample variance, denominator `n − 1`. -/
def variance_list (values : List ℚ) : ℚ :=
  (values.map (fun v => (v - mean_list values) * (v - mean_list values))).sum /
    ((values.length : ℚ) - 1)

/-- The anomaly model of `_initialize_anomaly_model`: mean and standard deviation with
`threshold = 3·stddev`.  The standard deviation is a real square root, so the model
carries its square (the variance): every comparison the source makes with `stddev` or
`threshold` is monotone in it and is restated on squares below. -/
structure AnomalyModel where
  mean : ℚ
  variance : ℚ
deriving DecidableEq

/-- Embeds `TelemetryCollector._initialize_anomaly_model`: mean and sample stdev of the buffer
(for a single sample, `0.1 * mean`), stdev represented by its square. -/
def init_anomaly_model (values : List ℚ) : AnomalyModel :=
  { mean := mean_list values
    variance :=
      if values.length > 1 then variance_list values
      else (mean_list values / 10) * (mean_list values / 10) }

/-- Embeds `TelemetryCollector._check_anomaly`: the z-score is `|v − mean| / stddev` (0 when
`stddev = 0`) and a value is an anomaly iff `z > 3`; with `stddev = √variance ≥ 0` this
is exactly `(v − mean)² > 9·variance` and never holds when `variance = 0`. -/
def check_anomaly (value : ℚ) (model : AnomalyModel) : Bool :=
  if model.variance = 0 then false
  else if (value - model.mean) * (value - model.mean) > 9 * model.variance then true
  else false

/-- One pass of `_detect_anomalies` for a single metric with no prior model: with fewer
than 30 buffered samples nothing is checked; otherwise the model is initialized from the
whole buffer and each of the last 10 samples is flagged iff `_check_anomaly` holds.
Returns the flagged values in buffer order. -/
def detect_anomalies_once (values : List ℚ) : List ℚ :=
  if values.length < 30 then []
  else
    (values.drop (values.length - 10)).filter
      (fun v => check_anomaly v (init_anomaly_model values))

/-- Embeds `TelemetryCollector._record_metric` on one metric's buffer: unconditionally append
the new value (the source imposes no cap here). -/
def record_metric (buffer : List ℚ) (value : ℚ) : List ℚ :=
  buffer ++ [value]

/-- The per-metric truncation of `_clean_old_data` (lines 766-770): buffers longer than
1000 keep only their most recent 1000 values (`buf[-1000:]`). -/
def clean_buffer (buffer : List ℚ) : List ℚ :=
  if buffer.length > 1000 then buffer.drop (buffer.length - 1000) else buffer

end TelemetryCollector

namespace Store

/-- Values the circuit-breaker code keeps in the store: a persisted circuit record (the
dict is stored in memory, its `state` still the enum), or any of the auxiliary records
(latency samples, error records, state-change records) whose contents no claim reads. -/
inductive StoreVal where
  | circuitRec (c : CircuitBreaker.Circuit)
  | auxRec
deriving DecidableEq

/-- Embeds `Store.get` (no TTL is ever set by the circuit-breaker code, so expiry is a no-op). -/
def get (st : List (String × StoreVal)) (key : String) : Option StoreVal :=
  lookup_assoc st key

/-- Embeds `Store.keys(pattern)`: the stored keys matching the glob pattern via `fnmatch`, in
insertion order. -/
def keys (st : List (String × StoreVal)) (pattern : String) : List String :=
  (st.map Prod.fst).filter (fun k => EventBus.glob_match k pattern)

/-- Embeds `CircuitBreaker._load_circuits` (lines 85-111): for every store key matching
`circuit.*.state`, split the key on `.`, read the circuit id from the second part, fetch
`circuit.<id>` and register the record found there. -/
def load_circuits (st : List (String × StoreVal)) :
    List (String × CircuitBreaker.Circuit) :=
  (keys st "circuit.*.state").foldl (fun acc key =>
    let parts := split_char '.' key.data
    if parts.length ≥ 3 then
      match get st ("circuit." ++ String.mk (parts.getD 1 [])) with
      | some (.circuitRec c) => set_assoc acc (String.mk (parts.getD 1 [])) c
      | _ => acc
    else acc) []

/-- The store write of `register_circuit` for a new circuit (line 175): the whole record
under `circuit.<source>:<target>`. -/
def register_circuit_store (now : ℚ) (source target : String)
    (st : List (String × StoreVal)) : List (String × StoreVal) :=
  set_assoc st ("circuit." ++ source ++ ":" ++ target)
    (.circuitRec (CircuitBreaker.fresh_circuit source target now))

end Store

/-! Concrete fixtures used to instantiate the theorems below. -/

/-- A freshly registered circuit on the edge `a → b` (default configuration). -/
def test_circuit : CircuitBreaker.Circuit :=
  CircuitBreaker.fresh_circuit "a" "b" 0

/-- An OPEN circuit on the edge `a → b`: default configuration, tripped at time 0 after
3 failures, with a stale `half_open_calls` of 5 left over from an earlier cycle. -/
def open_test_circuit : CircuitBreaker.Circuit :=
  { state := .opened
    failure_count := 3
    success_count := 0
    last_failure_time := 0
    last_success_time := 0
    last_state_change := 0
    total_failures := 3
    total_successes := 0
    total_timeouts := 0
    open_count := 1
    source := "a"
    target := "b"
    max_failures := 3
    reset_timeout := 30
    half_open_max_calls := 1
    success_threshold := 2
    half_open_calls := 5 }

/-- A HALF_OPEN circuit on the edge `a → b` whose probe quota (1 call) is already used. -/
def half_open_test_circuit : CircuitBreaker.Circuit :=
  { open_test_circuit with state := .halfOpened, half_open_calls := 1 }

/-- The default `cpu.percent` thresholds of `_load_config`: warning 70, critical 90. -/
def cpu_thresholds : List (String × TelemetryCollector.Thresholds) :=
  [("cpu.percent", ⟨some 70, some 90⟩)]

/-- An aggregation result whose mean is 95.0 (only the mean matters to the scenario). -/
def cpu_stats : TelemetryCollector.Stats :=
  ⟨some 95, none, none⟩

/-- First threshold check of the C5 scenario, at time 0 with no active alerts. -/
def cpu_check_first : List TelemetryCollector.Alert ×
    List (String × TelemetryCollector.ActiveAlert) :=
  TelemetryCollector.check_thresholds cpu_thresholds "cpu.percent" cpu_stats 0 []

/-- Second, identical threshold check 100 seconds later, against the active alerts left
by the first. -/
def cpu_check_second : List TelemetryCollector.Alert ×
    List (String × TelemetryCollector.ActiveAlert) :=
  TelemetryCollector.check_thresholds cpu_thresholds "cpu.percent" cpu_stats 100
    cpu_check_first.2

/-- The metric buffer of the C7 scenario: 29 samples of value 10, then one of 1000. -/
def anomaly_test_values : List ℚ :=
  List.replicate 29 10 ++ [1000]

/-- A circuit record with non-default contents, as persisted after two failures. -/
def persisted_test_circuit : CircuitBreaker.Circuit :=
  { test_circuit with failure_count := 2, total_failures := 2, last_failure_time := 7 }

/-- The store contents after registering `a → b` and recording activity on it: the
record under `circuit.a:b` plus every auxiliary key the breaker and the telemetry
collector write for this circuit. -/
def persisted_test_store : List (String × Store.StoreVal) :=
  [("circuit.a:b", .circuitRec persisted_test_circuit),
   ("circuit.a:b.error.7", .auxRec),
   ("circuit.a:b.state_change.9", .auxRec),
   ("circuit.a:b.latency.5", .auxRec),
   ("circuit.state.a:b.9", .auxRec)]

/-! Helper lemmas. -/

/-- Operation `_change_state` to a state other than HALF_OPEN never touches `half_open_calls`. -/
lemma change_state_half_open_calls (now : ℚ) (s : CircuitBreaker.CircuitState)
    (c : CircuitBreaker.Circuit) (h : s ≠ .halfOpened) :
    (CircuitBreaker.change_state now s c).half_open_calls = c.half_open_calls := by
  unfold CircuitBreaker.change_state
  split
  · rfl
  · cases s <;> simp_all

/-- Operation `_record_success` never touches `half_open_calls`. -/
lemma record_success_half_open_calls (now : ℚ) (c : CircuitBreaker.Circuit) :
    (CircuitBreaker.record_success now c).half_open_calls = c.half_open_calls := by
  unfold CircuitBreaker.record_success
  dsimp only
  split
  · rw [change_state_half_open_calls _ _ _ (by simp)]
  · rfl

/-- Operation `_record_failure` never touches `half_open_calls`. -/
lemma record_failure_half_open_calls (now : ℚ) (c : CircuitBreaker.Circuit) :
    (CircuitBreaker.record_failure now c).half_open_calls = c.half_open_calls := by
  unfold CircuitBreaker.record_failure
  dsimp only
  split
  · rw [change_state_half_open_calls _ _ _ (by simp)]
  · rfl

/-- Operation `_record_timeout` never touches `half_open_calls`. -/
lemma record_timeout_half_open_calls (now : ℚ) (c : CircuitBreaker.Circuit) :
    (CircuitBreaker.record_timeout now c).half_open_calls = c.half_open_calls := by
  unfold CircuitBreaker.record_timeout
  rw [record_failure_half_open_calls]

/-- The run phase always invokes the function. -/
lemma run_fn_invoked (now : ℚ) (hf : Bool) (oc : CircuitBreaker.FnOutcome)
    (c : CircuitBreaker.Circuit) :
    (CircuitBreaker.run_fn now hf oc c).fn_invoked = true := by
  cases oc <;> rfl

/-- The run phase never touches `half_open_calls`. -/
lemma run_fn_half_open_calls (now : ℚ) (hf : Bool) (oc : CircuitBreaker.FnOutcome)
    (c : CircuitBreaker.Circuit) :
    (CircuitBreaker.run_fn now hf oc c).circuit.half_open_calls = c.half_open_calls := by
  cases oc
  · exact record_success_half_open_calls now c
  · exact record_failure_half_open_calls now c
  · exact record_timeout_half_open_calls now c

/-! Claim theorems. -/

/-- C9: a subscription registered with pattern `"sys:*"` is notified by `emit` for the
event names `"sys:started"` and `"sys:stopped"`, and is not notified for `"syslog"`. -/
theorem c9_wildcard_subscription_matching :
    EventBus.emit [⟨"sys:*", 0⟩] "sys:started" = [0] ∧
    EventBus.emit [⟨"sys:*", 0⟩] "sys:stopped" = [0] ∧
    EventBus.emit [⟨"sys:*", 0⟩] "syslog" = [] := by
  decide

/-- C2 counterexample: on the call that itself performs the OPEN→HALF_OPEN transition
(circuit OPEN, reset timeout elapsed), `execute` does not increment `half_open_calls`:
it resets it to 0 (here from a stale 5) and invokes the function, so the claimed
increment-and-quota check does not happen on that call. -/
theorem c2_counterexample :
    open_test_circuit.state = .opened ∧
    (31 : ℚ) - open_test_circuit.last_failure_time > open_test_circuit.reset_timeout ∧
    (CircuitBreaker.execute 31 true .ok open_test_circuit).circuit.state = .halfOpened ∧
    (CircuitBreaker.execute 31 true .ok open_test_circuit).fn_invoked = true ∧
    (CircuitBreaker.execute 31 true .ok open_test_circuit).circuit.half_open_calls = 0 ∧
    (CircuitBreaker.execute 31 true .ok open_test_circuit).circuit.half_open_calls ≠
      open_test_circuit.half_open_calls + 1 ∧
    (CircuitBreaker.execute 31 true .ok open_test_circuit).circuit.half_open_calls ≠ 1 := by
  refine ⟨rfl, by norm_num [open_test_circuit], ?_⟩
  simp +decide [CircuitBreaker.execute, CircuitBreaker.change_state, CircuitBreaker.run_fn,
    CircuitBreaker.record_success, open_test_circuit]

/-- C2 (amended): for every `execute` call, (i) if the circuit is OPEN and the reset
timeout has not elapsed since `last_failure_time`, the call fails fast — fallback when
provided, raise otherwise — without invoking `fn`; (ii) if the circuit is already
HALF_OPEN at the start of the call, `half_open_calls` is incremented, and when it then
exceeds `half_open_max_calls` the call fails fast the same way without invoking `fn`;
(iii) a call that itself transitions the circuit OPEN→HALF_OPEN leaves
`half_open_calls` at 0 (it does not increment it) and invokes `fn`. -/
theorem c2_execute_amended (now : ℚ) (hf : Bool) (oc : CircuitBreaker.FnOutcome)
    (c : CircuitBreaker.Circuit) :
    (c.state = .opened → ¬(now - c.last_failure_time > c.reset_timeout) →
      (CircuitBreaker.execute now hf oc c).path = .fastOpen ∧
      (CircuitBreaker.execute now hf oc c).fn_invoked = false ∧
      (CircuitBreaker.execute now hf oc c).used_fallback = hf ∧
      (CircuitBreaker.execute now hf oc c).raised = !hf) ∧
    (c.state = .halfOpened →
      (CircuitBreaker.execute now hf oc c).circuit.half_open_calls =
        c.half_open_calls + 1 ∧
      (c.half_open_calls + 1 > c.half_open_max_calls →
        (CircuitBreaker.execute now hf oc c).path = .fastHalfOpen ∧
        (CircuitBreaker.execute now hf oc c).fn_invoked = false ∧
        (CircuitBreaker.execute now hf oc c).used_fallback = hf ∧
        (CircuitBreaker.execute now hf oc c).raised = !hf)) ∧
    (c.state = .opened → now - c.last_failure_time > c.reset_timeout →
      (CircuitBreaker.execute now hf oc c).fn_invoked = true ∧
      (CircuitBreaker.execute now hf oc c).circuit.half_open_calls = 0) := by
  refine ⟨?_, ?_, ?_⟩
  · intro hs ht
    unfold CircuitBreaker.execute
    simp only [hs, if_pos rfl, if_neg ht]
    exact ⟨rfl, rfl, rfl, rfl⟩
  · intro hs
    unfold CircuitBreaker.execute
    simp only [hs]
    rw [if_neg (by simp), if_pos trivial]
    constructor
    · split
      · rfl
      · rw [run_fn_half_open_calls]
    · intro hq
      rw [if_pos hq]
      exact ⟨rfl, rfl, rfl, rfl⟩
  · intro hs ht
    unfold CircuitBreaker.execute
    simp only [hs]
    rw [if_pos trivial, if_pos ht]
    refine ⟨run_fn_invoked _ _ _ _, ?_⟩
    rw [run_fn_half_open_calls]

/-- C2 amended witness: the three cases of `c2_execute_amended` evaluated on concrete
circuits — a fail-fast OPEN call at time 20, an exhausted HALF_OPEN probe quota, and an
OPEN→HALF_OPEN transition at time 31. -/
theorem c2_execute_amended_witness :
    open_test_circuit.state = .opened ∧
    ¬((20 : ℚ) - open_test_circuit.last_failure_time > open_test_circuit.reset_timeout) ∧
    (CircuitBreaker.execute 20 true .ok open_test_circuit).path = .fastOpen ∧
    half_open_test_circuit.state = .halfOpened ∧
    (CircuitBreaker.execute 20 true .ok half_open_test_circuit).circuit.half_open_calls =
      half_open_test_circuit.half_open_calls + 1 ∧
    (CircuitBreaker.execute 20 true .ok half_open_test_circuit).path = .fastHalfOpen ∧
    (31 : ℚ) - open_test_circuit.last_failure_time > open_test_circuit.reset_timeout ∧
    (CircuitBreaker.execute 31 true .ok open_test_circuit).fn_invoked = true := by
  have h20 : ¬((20 : ℚ) - open_test_circuit.last_failure_time >
      open_test_circuit.reset_timeout) := by norm_num [open_test_circuit]
  have h31 : (31 : ℚ) - open_test_circuit.last_failure_time >
      open_test_circuit.reset_timeout := by norm_num [open_test_circuit]
  have hq : half_open_test_circuit.half_open_calls + 1 >
      half_open_test_circuit.half_open_max_calls := by decide
  refine ⟨rfl, h20, ((c2_execute_amended 20 true .ok open_test_circuit).1 rfl h20).1,
    rfl, ((c2_execute_amended 20 true .ok half_open_test_circuit).2.1 rfl).1,
    (((c2_execute_amended 20 true .ok half_open_test_circuit).2.1 rfl).2 hq).1,
    h31, ((c2_execute_amended 31 true .ok open_test_circuit).2.2 rfl h31).1⟩

/-- Below the failure threshold, consecutive recorded failures keep a fresh CLOSED
circuit CLOSED, advancing only `failure_count`; `open_count` and the configuration are
untouched. -/
lemma iter_record_failure_closed (now : ℚ) (c : CircuitBreaker.Circuit)
    (h0 : c.state = .closed) (hf : c.failure_count = 0) :
    ∀ n, n < c.max_failures →
      ((CircuitBreaker.record_failure now)^[n] c).state = .closed ∧
      ((CircuitBreaker.record_failure now)^[n] c).failure_count = n ∧
      ((CircuitBreaker.record_failure now)^[n] c).open_count = c.open_count ∧
      ((CircuitBreaker.record_failure now)^[n] c).max_failures = c.max_failures := by
  intro n
  induction n with
  | zero =>
    intro _
    refine ⟨by simpa using h0, by simpa using hf, by simp, by simp⟩
  | succ k ih =>
    intro hlt
    obtain ⟨hs, hfc, hoc, hmf⟩ := ih (Nat.lt_of_succ_lt hlt)
    rw [Function.iterate_succ_apply']
    generalize hck : (CircuitBreaker.record_failure now)^[k] c = ck at hs hfc hoc hmf ⊢
    unfold CircuitBreaker.record_failure
    dsimp only
    rw [if_neg (by
      rintro ⟨-, hge⟩
      rw [hfc, hmf] at hge
      omega)]
    exact ⟨hs, by rw [hfc], hoc, hmf⟩

/-- C1: a CLOSED circuit with no consecutive failures yet recorded stays CLOSED (with
`open_count` unchanged) through the first `max_failures − 1` consecutive recorded
failures, and on exactly the `max_failures`-th consecutive failure (no intervening
success) becomes OPEN with `open_count` increased by exactly 1. -/
theorem c1_opens_after_exactly_max_failures (now : ℚ) (c : CircuitBreaker.Circuit)
    (h0 : c.state = .closed) (hf : c.failure_count = 0) (hm : 1 ≤ c.max_failures) :
    (∀ k, k < c.max_failures →
      ((CircuitBreaker.record_failure now)^[k] c).state = .closed ∧
      ((CircuitBreaker.record_failure now)^[k] c).open_count = c.open_count) ∧
    ((CircuitBreaker.record_failure now)^[c.max_failures] c).state = .opened ∧
    ((CircuitBreaker.record_failure now)^[c.max_failures] c).open_count =
      c.open_count + 1 := by
  have hiter := iter_record_failure_closed now c h0 hf
  refine ⟨fun k hk => ⟨(hiter k hk).1, (hiter k hk).2.2.1⟩, ?_⟩
  obtain ⟨m, hm'⟩ : ∃ m, c.max_failures = m + 1 := ⟨c.max_failures - 1, by omega⟩
  obtain ⟨hs, hfc, hoc, hmf⟩ := hiter m (by omega)
  rw [hm', Function.iterate_succ_apply']
  generalize hck : (CircuitBreaker.record_failure now)^[m] c = ck at hs hfc hoc hmf ⊢
  unfold CircuitBreaker.record_failure
  dsimp only
  rw [if_pos ⟨Or.inl hs, by rw [hfc, hmf, hm']⟩]
  unfold CircuitBreaker.change_state
  dsimp only
  rw [if_neg (by rw [hs]; simp)]
  exact ⟨rfl, by rw [hoc]⟩

/-- C1 witness: the freshly registered circuit `a → b` (CLOSED, `max_failures = 3`,
`failure_count = 0`) is OPEN with `open_count` 1 after its 3rd consecutive failure. -/
theorem c1_opens_after_exactly_max_failures_witness :
    test_circuit.state = .closed ∧ test_circuit.failure_count = 0 ∧
    1 ≤ test_circuit.max_failures ∧
    ((CircuitBreaker.record_failure 2)^[test_circuit.max_failures] test_circuit).state =
      .opened ∧
    ((CircuitBreaker.record_failure 2)^[test_circuit.max_failures]
      test_circuit).open_count = test_circuit.open_count + 1 :=
  ⟨rfl, rfl, by decide,
    (c1_opens_after_exactly_max_failures 2 test_circuit rfl rfl (by decide)).2.1,
    (c1_opens_after_exactly_max_failures 2 test_circuit rfl rfl (by decide)).2.2⟩

/-- A circuit one of whose two consecutive counters is zero satisfies the invariant. -/
lemma counters_mutex_of_counts (c : CircuitBreaker.Circuit)
    (h : c.failure_count = 0 ∨ c.success_count = 0) : CircuitBreaker.counters_mutex c := by
  unfold CircuitBreaker.counters_mutex
  rcases h with h | h <;> constructor <;> intro h2 <;> omega

/-- Operation `_record_success` always leaves `failure_count = 0`. -/
lemma record_success_failure_count (now : ℚ) (c : CircuitBreaker.Circuit) :
    (CircuitBreaker.record_success now c).failure_count = 0 := by
  unfold CircuitBreaker.record_success
  dsimp only
  split
  · unfold CircuitBreaker.change_state
    dsimp only
    split
    · rfl
    · rfl
  · rfl

/-- Operation `_record_failure` always leaves `success_count = 0`. -/
lemma record_failure_success_count (now : ℚ) (c : CircuitBreaker.Circuit) :
    (CircuitBreaker.record_failure now c).success_count = 0 := by
  unfold CircuitBreaker.record_failure
  dsimp only
  split
  · unfold CircuitBreaker.change_state
    dsimp only
    split
    · rfl
    · rfl
  · rfl

/-- The run phase of `execute` always re-establishes the counter invariant. -/
lemma counters_mutex_run_fn (now : ℚ) (hf : Bool) (oc : CircuitBreaker.FnOutcome)
    (c : CircuitBreaker.Circuit) :
    CircuitBreaker.counters_mutex ((CircuitBreaker.run_fn now hf oc c).circuit) := by
  cases oc
  · exact counters_mutex_of_counts _ (Or.inl (record_success_failure_count now c))
  · exact counters_mutex_of_counts _ (Or.inr (record_failure_success_count now c))
  · exact counters_mutex_of_counts _ (Or.inr (record_failure_success_count now _))

/-- Operation `_change_state` preserves the counter invariant. -/
lemma counters_mutex_change_state (now : ℚ) (s : CircuitBreaker.CircuitState)
    (c : CircuitBreaker.Circuit) (h : CircuitBreaker.counters_mutex c) :
    CircuitBreaker.counters_mutex (CircuitBreaker.change_state now s c) := by
  unfold CircuitBreaker.change_state
  split
  · exact h
  · cases s
    · exact counters_mutex_of_counts _ (Or.inl rfl)
    · exact counters_mutex_of_counts _ (Or.inr rfl)
    · exact counters_mutex_of_counts _ (Or.inr rfl)

/-- C3: the mutual exclusion of `failure_count` and `success_count` (`failureCount > 0 ⇒
successCount == 0` and vice versa) holds for a freshly registered circuit and is
preserved — in fact mostly re-established — by every circuit operation: recording a
success, a failure or a timeout, a state change, a manual reset, and a full `execute`
call. -/
theorem c3_counters_mutually_exclusive :
    (∀ source target now, CircuitBreaker.counters_mutex
      (CircuitBreaker.fresh_circuit source target now)) ∧
    (∀ now c, CircuitBreaker.counters_mutex (CircuitBreaker.record_success now c)) ∧
    (∀ now c, CircuitBreaker.counters_mutex (CircuitBreaker.record_failure now c)) ∧
    (∀ now c, CircuitBreaker.counters_mutex (CircuitBreaker.record_timeout now c)) ∧
    (∀ now s c, CircuitBreaker.counters_mutex c →
      CircuitBreaker.counters_mutex (CircuitBreaker.change_state now s c)) ∧
    (∀ now c, CircuitBreaker.counters_mutex c →
      CircuitBreaker.counters_mutex (CircuitBreaker.reset now c)) ∧
    (∀ now hf oc c, CircuitBreaker.counters_mutex c →
      CircuitBreaker.counters_mutex ((CircuitBreaker.execute now hf oc c).circuit)) := by
  refine ⟨fun _ _ _ => counters_mutex_of_counts _ (Or.inl rfl),
    fun now c => counters_mutex_of_counts _ (Or.inl (record_success_failure_count now c)),
    fun now c => counters_mutex_of_counts _ (Or.inr (record_failure_success_count now c)),
    fun now c => counters_mutex_of_counts _ (Or.inr (record_failure_success_count now _)),
    counters_mutex_change_state,
    fun now c h => counters_mutex_change_state now _ c h,
    fun now hf oc c h => ?_⟩
  unfold CircuitBreaker.execute
  dsimp only
  split
  · split
    · exact counters_mutex_run_fn now hf oc _
    · exact h
  · split
    · split
      · exact h
      · exact counters_mutex_run_fn now hf oc _
    · exact counters_mutex_run_fn now hf oc _

/-- C3 witness: the invariant evaluated through the theorem on the concrete circuits
used above — a state change and a full `execute` call on the fresh `a → b` circuit, and
a reset of the OPEN one. -/
theorem c3_counters_mutually_exclusive_witness :
    CircuitBreaker.counters_mutex test_circuit ∧
    CircuitBreaker.counters_mutex open_test_circuit ∧
    CircuitBreaker.counters_mutex
      (CircuitBreaker.change_state 1 .halfOpened test_circuit) ∧
    CircuitBreaker.counters_mutex (CircuitBreaker.reset 1 open_test_circuit) ∧
    CircuitBreaker.counters_mutex
      ((CircuitBreaker.execute 1 true .raises test_circuit).circuit) :=
  ⟨by decide, by decide,
    c3_counters_mutually_exclusive.2.2.2.2.1 1 .halfOpened test_circuit (by decide),
    c3_counters_mutually_exclusive.2.2.2.2.2.1 1 open_test_circuit (by decide),
    c3_counters_mutually_exclusive.2.2.2.2.2.2 1 true .raises test_circuit (by decide)⟩

/-- Splitting on a character that does not occur returns the single original chunk
(Python `s.split(":") == [s]` when `":" not in s`). -/
lemma split_char_no_sep (sep : Char) (s : List Char) (h : ∀ a ∈ s, a ≠ sep) :
    split_char sep s = [s] := by
  induction s with
  | nil => rfl
  | cons c cs ih =>
    have hc : c ≠ sep := h c (by simp)
    have ih' := ih (fun a ha => h a (by simp [ha]))
    unfold split_char
    rw [ih']
    simp [hc]

/-- Appending an entry under a fresh different key does not make a missing key appear. -/
lemma lookup_assoc_append_ne {α : Type} (l : List (String × α)) (cid k : String) (v : α)
    (hne : k ≠ cid) (h : lookup_assoc l cid = none) :
    lookup_assoc (l ++ [(k, v)]) cid = none := by
  unfold lookup_assoc at h ⊢
  rw [List.find?_append]
  cases hfind : l.find? (fun p => p.1 == cid) with
  | none =>
    have hbeq : (k == cid) = false := by simpa using hne
    simp [List.find?, hbeq]
  | some p => simp [hfind] at h

/-- An appended entry is found under its own key if nothing earlier shadows it. -/
lemma lookup_assoc_append_self {α : Type} (l : List (String × α)) (k : String) (v : α) :
    (lookup_assoc (l ++ [(k, v)]) k).isSome = true := by
  unfold lookup_assoc
  rw [List.find?_append]
  cases hfind : l.find? (fun p => p.1 == k) with
  | none => simp
  | some p => simp

/-- The registry key `"default:" ++ cid` differs from `cid` (it is 8 characters longer). -/
lemma default_key_ne (cid : String) : ("default" ++ ":" ++ cid) ≠ cid := by
  intro h
  have hlen := congrArg String.length h
  rw [String.length_append, String.length_append] at hlen
  have h7 : ("default" : String).length = 7 := by decide
  have h1 : (":" : String).length = 1 := by decide
  omega

/-- C10: `CircuitBreaker.execute` on an unregistered `circuit_id` containing no `:`
auto-registers the circuit under the key `"default:" ++ circuit_id` and then fails with a
`KeyError` on the lookup of `circuit_id` itself (modelled by `execute_full = none`),
before the function, the fallback or any success/failure recording is reached. -/
theorem c10_keyerror_on_colonless_circuit_id (now : ℚ) (hf : Bool)
    (oc : CircuitBreaker.FnOutcome) (cid : String)
    (hnc : ∀ a ∈ cid.data, a ≠ ':') (r : List (String × CircuitBreaker.Circuit))
    (hreg : lookup_assoc r cid = none) :
    CircuitBreaker.execute_full now hf oc cid r = none ∧
    (lookup_assoc (CircuitBreaker.ensure_circuit now cid r)
      ("default" ++ ":" ++ cid)).isSome = true := by
  have hsplit : split_char ':' cid.data = [cid.data] := split_char_no_sep ':' cid.data hnc
  have hens : CircuitBreaker.ensure_circuit now cid r =
      CircuitBreaker.register_circuit now "default" cid r := by
    unfold CircuitBreaker.ensure_circuit
    rw [if_neg (by simp [hreg]), hsplit]
  have hlook : lookup_assoc (CircuitBreaker.ensure_circuit now cid r) cid = none := by
    rw [hens]
    unfold CircuitBreaker.register_circuit
    dsimp only
    split
    · exact hreg
    · exact lookup_assoc_append_ne r cid _ _ (default_key_ne cid) hreg
  refine ⟨?_, ?_⟩
  · unfold CircuitBreaker.execute_full
    dsimp only
    rw [hlook]
  · rw [hens]
    unfold CircuitBreaker.register_circuit
    dsimp only
    split
    · rename_i hsome
      simpa using hsome
    · exact lookup_assoc_append_self r _ _

/-- C10 witness: the concrete colon-free id `"svc"` against an empty registry — the call
fails with the modelled `KeyError` while the circuit sits under `"default:svc"`. -/
theorem c10_keyerror_on_colonless_circuit_id_witness :
    (∀ a ∈ ("svc" : String).data, a ≠ ':') ∧
    lookup_assoc ([] : List (String × CircuitBreaker.Circuit)) "svc" = none ∧
    CircuitBreaker.execute_full 0 true .ok "svc" [] = none ∧
    (lookup_assoc (CircuitBreaker.ensure_circuit 0 "svc" [])
      ("default" ++ ":" ++ "svc")).isSome = true :=
  ⟨by decide, rfl,
    (c10_keyerror_on_colonless_circuit_id 0 true .ok "svc" (by decide) [] rfl).1,
    (c10_keyerror_on_colonless_circuit_id 0 true .ok "svc" (by decide) [] rfl).2⟩

/-- On a CLOSED circuit, `execute` goes straight to the run phase. -/
lemma execute_closed (now : ℚ) (hf : Bool) (oc : CircuitBreaker.FnOutcome)
    (c : CircuitBreaker.Circuit) (h : c.state = .closed) :
    CircuitBreaker.execute now hf oc c = CircuitBreaker.run_fn now hf oc c := by
  unfold CircuitBreaker.execute
  rw [if_neg (by simp [h]), if_neg (by simp [h])]

/-- On an OPEN circuit whose reset timeout has not elapsed, `execute` fails fast and
leaves the circuit untouched. -/
lemma execute_open_not_elapsed (now : ℚ) (hf : Bool) (oc : CircuitBreaker.FnOutcome)
    (c : CircuitBreaker.Circuit) (h : c.state = .opened)
    (ht : ¬(now - c.last_failure_time > c.reset_timeout)) :
    CircuitBreaker.execute now hf oc c = ⟨.fastOpen, hf, !hf, false, c⟩ := by
  unfold CircuitBreaker.execute
  rw [if_pos h, if_neg ht]

/-- The `module:call:<target>` event name never collides with
`module:interaction_error`. -/
lemma module_call_event_ne (target : String) :
    ("module:call:" ++ target) ≠ "module:interaction_error" := by
  intro h
  have hd := congrArg String.data h
  rw [String.data_append] at hd
  simp +decide at hd

/-- C4 counterexample: a mediated call on an edge whose circuit is OPEN inside the reset
timeout fails with the CircuitOpen kind and is absorbed by the configured fallback (the
caller receives the fallback result, no function runs), yet the interaction trace is left
at `pending` — not updated to `error` — and no `module:interaction_error` event is
emitted. -/
theorem c4_counterexample :
    (InteractionManager.mediated_call (some 20) none "tv" 10 .ok
      open_test_circuit).result = .fallbackNone ∧
    (InteractionManager.mediated_call (some 20) none "tv" 10 .ok
      open_test_circuit).fn_invoked = false ∧
    (InteractionManager.mediated_call (some 20) none "tv" 10 .ok
      open_test_circuit).trace = .pending ∧
    "module:interaction_error" ∉
      (InteractionManager.mediated_call (some 20) none "tv" 10 .ok
        open_test_circuit).events := by
  have hexec := execute_open_not_elapsed 10 true .ok open_test_circuit rfl
    (by norm_num [open_test_circuit])
  unfold InteractionManager.mediated_call InteractionManager.mediated_call_protected
  rw [hexec]
  refine ⟨rfl, rfl, rfl, by decide⟩

/-- C4 (amended): a mediated call records the trace error and emits
`module:interaction_error` for permission failures, security failures, and execution
errors raised by the target body — the last even when the circuit-breaker fallback
absorbs the failure — but a Timeout or a CircuitOpen failure absorbed by the always-
configured fallback leaves the trace at `pending` and emits no
`module:interaction_error` event. -/
theorem c4_error_recording_amended (req : Nat) (ctx : Option Nat) (l : Nat)
    (target : String) (now : ℚ) (oc : CircuitBreaker.FnOutcome)
    (c : CircuitBreaker.Circuit) :
    ((InteractionManager.mediated_call none ctx target now oc c).trace =
        .error "PERMISSION_ERROR" ∧
      "module:interaction_error" ∈
        (InteractionManager.mediated_call none ctx target now oc c).events ∧
      (InteractionManager.mediated_call none ctx target now oc c).result =
        .raisedPermission "PERMISSION_ERROR") ∧
    (l < req →
      (InteractionManager.mediated_call (some req) (some l) target now oc c).trace =
        .error "SECURITY_ERROR" ∧
      "module:interaction_error" ∈
        (InteractionManager.mediated_call (some req) (some l) target now oc c).events) ∧
    (c.state = .closed →
      (InteractionManager.mediated_call (some req) none target now .raises c).trace =
        .error "EXECUTION_ERROR" ∧
      "module:interaction_error" ∈
        (InteractionManager.mediated_call (some req) none target now .raises c).events ∧
      (InteractionManager.mediated_call (some req) none target now .raises c).result =
        .fallbackNone) ∧
    (c.state = .opened → ¬(now - c.last_failure_time > c.reset_timeout) →
      (InteractionManager.mediated_call (some req) none target now oc c).trace =
        .pending ∧
      "module:interaction_error" ∉
        (InteractionManager.mediated_call (some req) none target now oc c).events ∧
      (InteractionManager.mediated_call (some req) none target now oc c).result =
        .fallbackNone ∧
      (InteractionManager.mediated_call (some req) none target now oc c).fn_invoked =
        false) ∧
    (c.state = .closed →
      (InteractionManager.mediated_call (some req) none target now .timedOut c).trace =
        .pending ∧
      "module:interaction_error" ∉
        (InteractionManager.mediated_call (some req) none target now .timedOut c).events ∧
      (InteractionManager.mediated_call (some req) none target now .timedOut c).result =
        .fallbackNone ∧
      (InteractionManager.mediated_call (some req) none target now .timedOut c).fn_invoked =
        true) := by
  refine ⟨?_, ?_, ?_, ?_, ?_⟩
  · unfold InteractionManager.mediated_call
    exact ⟨rfl, by simp, rfl⟩
  · intro hlt
    unfold InteractionManager.mediated_call
    dsimp only
    rw [if_pos hlt]
    exact ⟨rfl, by simp⟩
  · intro hc
    unfold InteractionManager.mediated_call InteractionManager.mediated_call_protected
    dsimp only
    rw [execute_closed now true .raises c hc]
    dsimp only [CircuitBreaker.run_fn]
    exact ⟨rfl, by simp, rfl⟩
  · intro hc ht
    unfold InteractionManager.mediated_call InteractionManager.mediated_call_protected
    dsimp only
    rw [execute_open_not_elapsed now true oc c hc ht]
    dsimp only
    exact ⟨rfl, by decide, rfl, rfl⟩
  · intro hc
    unfold InteractionManager.mediated_call InteractionManager.mediated_call_protected
    dsimp only
    rw [execute_closed now true .timedOut c hc]
    dsimp only [CircuitBreaker.run_fn]
    refine ⟨rfl, ?_, rfl, rfl⟩
    intro hmem
    rcases List.mem_cons.mp hmem with h | hmem
    · exact module_call_event_ne target h.symm
    rcases List.mem_cons.mp hmem with h | hmem
    · exact absurd h (by decide)
    rcases List.mem_cons.mp hmem with h | hmem
    · exact absurd h (by decide)
    · exact absurd hmem (by simp)

/-- C4 amended witness: the five cases instantiated — a missing edge, an insufficient
security level (10 < 20), an execution error absorbed by the fallback on the fresh CLOSED
circuit, the fail-fast OPEN call of the counterexample, and a timeout absorbed by the
fallback on the CLOSED circuit. -/
theorem c4_error_recording_amended_witness :
    ((10 : Nat) < 20) ∧
    (InteractionManager.mediated_call none none "tv" 10 .ok test_circuit).trace =
      .error "PERMISSION_ERROR" ∧
    (InteractionManager.mediated_call (some 20) (some 10) "tv" 10 .ok test_circuit).trace =
      .error "SECURITY_ERROR" ∧
    test_circuit.state = .closed ∧
    (InteractionManager.mediated_call (some 20) none "tv" 10 .raises test_circuit).trace =
      .error "EXECUTION_ERROR" ∧
    open_test_circuit.state = .opened ∧
    ¬((10 : ℚ) - open_test_circuit.last_failure_time > open_test_circuit.reset_timeout) ∧
    "module:interaction_error" ∉
      (InteractionManager.mediated_call (some 20) none "tv" 10 .ok
        open_test_circuit).events ∧
    "module:interaction_error" ∉
      (InteractionManager.mediated_call (some 20) none "tv" 10 .timedOut
        test_circuit).events :=
  ⟨by decide,
    (c4_error_recording_amended 20 none 10 "tv" 10 .ok test_circuit).1.1,
    ((c4_error_recording_amended 20 none 10 "tv" 10 .ok test_circuit).2.1
      (by decide)).1,
    rfl,
    ((c4_error_recording_amended 20 none 10 "tv" 10 .ok test_circuit).2.2.1 rfl).1,
    rfl,
    by norm_num [open_test_circuit],
    ((c4_error_recording_amended 20 none 10 "tv" 10 .ok open_test_circuit).2.2.2.1 rfl
      (by norm_num [open_test_circuit])).2.1,
    ((c4_error_recording_amended 20 none 10 "tv" 10 .ok test_circuit).2.2.2.2 rfl).2.1⟩

/-- C5 evaluation (code bug): with the default `cpu.percent` thresholds and an aggregated
mean of 95.0, one threshold check emits exactly one CRITICAL alert carrying the value
95.0, and an identical check 100 seconds later emits nothing — that much of the claim
holds.  But the ≥50% value-growth exception does not: a same-key alert with the same
severity and a value twice the recorded one (200 ≥ 1.5·100), 10 seconds after it, is
still suppressed, because the first suppression test of `_emit_alert` returns before the
value-growth test can run. -/
theorem c5_alert_dedup_evaluation :
    cpu_check_first.1 = [⟨"high_cpu", .critical, "cpu.percent", 95, 90⟩] ∧
    cpu_check_first.2 = [("high_cpu:cpu.percent", ⟨.critical, 95, 0⟩)] ∧
    cpu_check_second.1 = [] ∧
    (TelemetryCollector.emit_alert 10 "cpu.percent" 200 90 .critical
      [("high_cpu:cpu.percent", ⟨.critical, 100, 0⟩)]).1 = [] ∧
    ((200 : ℚ) ≥ (3 / 2) * 100) ∧ ((10 : ℚ) - (0 : ℚ) < 300) := by
  have hkey : ("high_cpu" ++ ":" ++ "cpu.percent" : String) = "high_cpu:cpu.percent" := by
    decide
  have hfirst : cpu_check_first =
      ([⟨"high_cpu", .critical, "cpu.percent", 95, 90⟩],
       [("high_cpu:cpu.percent", ⟨.critical, 95, 0⟩)]) := by
    unfold cpu_check_first
    norm_num [TelemetryCollector.check_thresholds, cpu_thresholds, cpu_stats,
      TelemetryCollector.match_metric_pattern, TelemetryCollector.check_value_for,
      TelemetryCollector.threshold_action, TelemetryCollector.warning_action,
      TelemetryCollector.emit_alert, TelemetryCollector.alert_type,
      TelemetryCollector.starts_with, lookup_assoc, set_assoc, hkey]
  have hsecond : cpu_check_second.1 = [] := by
    unfold cpu_check_second
    rw [hfirst]
    norm_num [TelemetryCollector.check_thresholds, cpu_thresholds, cpu_stats,
      TelemetryCollector.match_metric_pattern, TelemetryCollector.check_value_for,
      TelemetryCollector.threshold_action, TelemetryCollector.warning_action,
      TelemetryCollector.emit_alert, TelemetryCollector.alert_type,
      TelemetryCollector.starts_with, lookup_assoc, hkey]
  have hgrow : (TelemetryCollector.emit_alert 10 "cpu.percent" 200 90 .critical
      [("high_cpu:cpu.percent", ⟨.critical, 100, 0⟩)]).1 = [] := by
    norm_num [TelemetryCollector.emit_alert, TelemetryCollector.alert_type,
      TelemetryCollector.starts_with, lookup_assoc, hkey]
  exact ⟨by rw [hfirst], by rw [hfirst], hsecond, hgrow, by norm_num, by norm_num⟩

/-- C6 evaluation (code bug): after registering the circuit `a → b`, its record sits in
the store under `circuit.a:b`, yet `_load_circuits` — which queries the keys matching
`circuit.*.state` — reloads nothing; the same holds for a store that also carries every
auxiliary key ever written for that circuit (none ends in `.state`), so a new
`CircuitBreaker` over the same store starts with no circuits instead of reproducing the
persisted state, counters and thresholds. -/
theorem c6_reload_finds_nothing :
    Store.get (Store.register_circuit_store 0 "a" "b" []) "circuit.a:b" =
      some (.circuitRec (CircuitBreaker.fresh_circuit "a" "b" 0)) ∧
    Store.load_circuits (Store.register_circuit_store 0 "a" "b" []) = [] ∧
    Store.get persisted_test_store "circuit.a:b" =
      some (.circuitRec persisted_test_circuit) ∧
    Store.load_circuits persisted_test_store = [] ∧
    lookup_assoc (Store.load_circuits persisted_test_store) "a:b" = none ∧
    EventBus.glob_match "circuit.a:b.state" "circuit.*.state" = true ∧
    (persisted_test_store.map Prod.fst).any
      (fun k => EventBus.glob_match k "circuit.*.state") = false := by
  exact ⟨rfl, rfl, rfl, rfl, rfl, rfl, rfl⟩

/-- Iterating `_record_metric` grows the buffer by exactly one value per call. -/
lemma record_metric_iterate_length (n : Nat) (b : List ℚ) :
    ((fun buf => TelemetryCollector.record_metric buf 0)^[n] b).length =
      b.length + n := by
  induction n with
  | zero => simp
  | succ k ih =>
    rw [Function.iterate_succ_apply']
    generalize (fun buf => TelemetryCollector.record_metric buf 0)^[k] b = bk at ih ⊢
    show (TelemetryCollector.record_metric bk 0).length = b.length + (k + 1)
    unfold TelemetryCollector.record_metric
    rw [List.length_append, ih]
    simp only [List.length_cons, List.length_nil]
    omega

/-- C8 counterexample: recording 1001 samples into an empty buffer leaves 1001 values in
it — `_record_metric` imposes no cap, so the 1000-value bound does not hold after every
metric-recording operation, only after a maintenance pass. -/
theorem c8_counterexample :
    ((fun buf => TelemetryCollector.record_metric buf 0)^[1001]
      ([] : List ℚ)).length = 1001 ∧
    ¬(((fun buf => TelemetryCollector.record_metric buf 0)^[1001]
      ([] : List ℚ)).length ≤ 1000) := by
  have h := record_metric_iterate_length 1001 ([] : List ℚ)
  simp only [List.length_nil, Nat.zero_add] at h
  exact ⟨h, by omega⟩

/-- C8 (amended): recording appends unconditionally (the buffer grows by one each time
and may exceed 1000 between maintenance passes); after a maintenance pass the buffer
holds at most 1000 values and is a suffix of the pre-pass buffer — the most recent
values, oldest dropped first. -/
theorem c8_buffer_cap_amended (buffer : List ℚ) (value : ℚ) :
    (TelemetryCollector.clean_buffer buffer).length ≤ 1000 ∧
    (TelemetryCollector.clean_buffer buffer).IsSuffix buffer ∧
    (TelemetryCollector.record_metric buffer value).length = buffer.length + 1 := by
  refine ⟨?_, ?_, by simp [TelemetryCollector.record_metric]⟩
  · unfold TelemetryCollector.clean_buffer
    split
    · rw [List.length_drop]
      omega
    · next h => omega
  · unfold TelemetryCollector.clean_buffer
    split
    · exact List.drop_suffix _ _
    · exact List.suffix_refl _

/-- The C7 buffer holds exactly 30 samples. -/
lemma anomaly_test_values_length : anomaly_test_values.length = 30 := by
  simp [anomaly_test_values]

/-- Mean of the C7 buffer: (29·10 + 1000)/30 = 43. -/
lemma anomaly_test_values_mean :
    TelemetryCollector.mean_list anomaly_test_values = 43 := by
  unfold TelemetryCollector.mean_list
  rw [anomaly_test_values_length]
  unfold anomaly_test_values
  rw [List.sum_append, List.sum_replicate]
  norm_num

/-- Sample variance of the C7 buffer: (29·33² + 957²)/29 = 947430/29. -/
lemma anomaly_test_values_variance :
    TelemetryCollector.variance_list anomaly_test_values = 947430 / 29 := by
  unfold TelemetryCollector.variance_list
  rw [anomaly_test_values_length]
  simp only [anomaly_test_values_mean]
  unfold anomaly_test_values
  rw [List.map_append, List.map_replicate, List.sum_append, List.sum_replicate]
  norm_num

/-- The anomaly model built from the 30 C7 samples. -/
lemma anomaly_test_model :
    TelemetryCollector.init_anomaly_model anomaly_test_values =
      ⟨43, 947430 / 29⟩ := by
  unfold TelemetryCollector.init_anomaly_model
  rw [anomaly_test_values_length, anomaly_test_values_mean, anomaly_test_values_variance]
  norm_num

/-- The sample of value 1000 breaches the model: 957² > 9·(947430/29), i.e. z > 3. -/
lemma anomaly_check_1000 :
    TelemetryCollector.check_anomaly 1000 ⟨43, 947430 / 29⟩ = true := by
  unfold TelemetryCollector.check_anomaly
  norm_num

/-- A sample of value 10 does not breach the model: 33² < 9·(947430/29), i.e. z < 3. -/
lemma anomaly_check_10 :
    TelemetryCollector.check_anomaly 10 ⟨43, 947430 / 29⟩ = false := by
  unfold TelemetryCollector.check_anomaly
  norm_num

/-- C7: one anomaly-detection pass over a buffer of 29 samples of value 10 followed by
one sample of value 1000 builds its model from all 30 samples and flags exactly the
sample of value 1000 (z-score > 3, stated on squares), flagging none of the samples of
value 10. -/
theorem c7_anomaly_detection_pass :
    TelemetryCollector.detect_anomalies_once anomaly_test_values = [1000] ∧
    TelemetryCollector.check_anomaly 1000
      (TelemetryCollector.init_anomaly_model anomaly_test_values) = true ∧
    TelemetryCollector.check_anomaly 10
      (TelemetryCollector.init_anomaly_model anomaly_test_values) = false := by
  refine ⟨?_, by rw [anomaly_test_model]; exact anomaly_check_1000,
    by rw [anomaly_test_model]; exact anomaly_check_10⟩
  unfold TelemetryCollector.detect_anomalies_once
  rw [anomaly_test_values_length]
  rw [if_neg (by norm_num)]
  simp only [anomaly_test_model]
  rw [show anomaly_test_values.drop (30 - 10) =
    [(10 : ℚ), 10, 10, 10, 10, 10, 10, 10, 10, 1000] from rfl]
  simp [anomaly_check_10, anomaly_check_1000]
